import Mathlib

/-!
Verification of the AI dialogue-generation subsystem of ai-powered-tuxemon.

Shallow embedding of `backend/app/ai/ai_manager.py`, `backend/app/ai/local_llm.py`
and `backend/app/ai/validation.py`.  Python floats are modelled as rationals,
UUIDs as strings, and the Redis backing store as an explicit record threaded
through the functions.  Each operation that Python wraps in `try/except` is
modelled with its failure cases made explicit (failure flags on the store for
store operations; `Except` for the one in-pipeline exception), so that
"never raises" claims are visible in the definitions.

Two facts about the source govern the orchestrator model:
  * `AIManager.generate_dialogue` (ai_manager.py:122-130) invokes
    `HybridLLMManager.generate_dialogue` with a keyword argument
    `gossip_context=...` that is not a parameter of that method
    (local_llm.py:303-311).  Python therefore raises `TypeError` at the call
    site, which the handler at ai_manager.py:195 catches; the call never
    reaches the hybrid manager's body.  The orchestrator model reflects this:
    the hybrid invocation is the error branch of the guarded region.
  * `HybridLLMManager`'s "Claude path" (local_llm.py:328 and :337) calls
    `self.claude_manager.generate_dialogue`, and `claude_manager` is the
    `AIManager` instance itself (ai_manager.py:56), i.e. a re-entry of the
    orchestrator; the actual Claude adapter `_generate_claude_dialogue` has no
    call site anywhere in the application code.
-/

namespace Tuxemon

/-- DialogueResponse (game/models.py:271-278).  `text` and `emotion` are plain
unconstrained strings in the source model; `relationship_change` is a float,
modelled as a rational.  `shop_items` is unused by the AI pipeline and omitted. -/
structure DialogueResponse where
  text : String
  emotion : String := "neutral"
  actions : List String := []
  relationship_change : ℚ := 0
  triggers_battle : Bool := false
deriving DecidableEq

/-- PersonalityTraits (game/models.py:224-233): named float traits in [0,1],
each defaulting to 0.5 (trust_threshold defaults to 0.3). -/
structure PersonalityTraits where
  curiosity : ℚ := mkRat 1 2
  patience : ℚ := mkRat 1 2
  verbosity : ℚ := mkRat 1 2
  humor : ℚ := mkRat 1 2
  trust_threshold : ℚ := mkRat 3 10
  friendliness : ℚ := mkRat 1 2
  competitiveness : ℚ := mkRat 1 2
  knowledge_sharing : ℚ := mkRat 1 2
deriving DecidableEq

/-- MemoryItem (game/models.py:291-300).  The UUID identity fields are not used
by any of the modelled operations and are omitted; `timestamp` is modelled as a
rational epoch value. -/
structure MemoryItem where
  content : String
  importance : ℚ
  timestamp : ℚ := 0
  tags : List String := []
  emotional_context : String := "neutral"
deriving DecidableEq

/-- NPCInteractionContext (game/models.py:259-268).  `player_id`, `npc_id` and
`player_position` are not read by the modelled operations and are omitted. -/
structure NPCInteractionContext where
  interaction_type : String
  relationship_level : ℚ
  time_of_day : String := ""
  player_party_summary : String := ""
  recent_achievements : List String := []
deriving DecidableEq

/-- The emotion vocabulary the dialogue contract allows
(ai_manager.py:306, spec section 3: the DialogueResponse emotion enum). -/
def allowedEmotions : List String :=
  ["neutral", "happy", "excited", "sad", "angry", "confused", "thoughtful"]

/-! ## Budget ledger — `DailyCostTracker` (ai_manager.py:827-1007)

The Redis hash fields the tracker touches for a single day are collected in
`LedgerState`.  Store failures are modelled by flags on `RedisModel`:
`connected = false` models `redis_client = None` (database.py:60-76, in which
case every awaited store call raises `AttributeError` inside the caller's
`try`), `hgetFails` models the ledger read raising, `incrFails` the ledger
write operations raising, and `cacheGetFails`/`cacheSetFails` the dialogue
cache read/write raising.  `get_redis` itself (database.py:74-76) only returns
the module-level client and can never raise. -/

/-- The per-day counters kept by `DailyCostTracker` in Redis. -/
structure LedgerState where
  dailyCost : Option ℚ := none
  dailyRequests : ℕ := 0
  hourlyRequests : ℕ := 0
  statsTotalCost : ℚ := 0
  statsTotalRequests : ℕ := 0
  statsRequestsClaude : ℕ := 0
  statsRequestsLocal : ℕ := 0
  statsTotalTokens : ℕ := 0
  statsTotalResponseTimeMs : ℕ := 0
deriving DecidableEq

/-- The Redis store visible to the AI pipeline: the ledger counters and the
dialogue cache (key to cached response; entries are within their TTL), plus the
failure modes of each store operation. -/
structure RedisModel where
  ledger : LedgerState := {}
  dialogueCache : List (String × DialogueResponse) := []
  connected : Bool := true
  hgetFails : Bool := false
  incrFails : Bool := false
  cacheGetFails : Bool := false
  cacheSetFails : Bool := false
deriving DecidableEq

/-- `DailyCostTracker.can_make_request` (ai_manager.py:835-858): reads today's
accumulated cost; a missing field means no spend yet; any exception inside the
`try` (store read failure, or the `AttributeError` when the client is `None`)
is caught and the method returns `True` ("Allow requests if tracking fails"). -/
def canMakeRequest (maxCostPerDay : ℚ) (st : RedisModel) : Bool :=
  if !st.connected || st.hgetFails then
    true
  else
    match st.ledger.dailyCost with
    | none => true
    | some currentCost => decide (currentCost < maxCostPerDay)

/-- `DailyCostTracker.record_request` (ai_manager.py:860-906): atomic
increments of cost, request counts and usage stats.  Every store operation sits
inside the `try`; any failure is caught and logged, leaving the store as it
was.  (`hincrby` of `total_tokens` / `total_response_time_ms` is guarded by
`> 0` in the source; incrementing by zero is the identity, so the unguarded
increment is extensionally the same.) -/
def recordRequest (estimatedCost : ℚ) (modelUsed : String) (tokensUsed : ℕ)
    (responseTimeMs : ℕ) (st : RedisModel) : RedisModel :=
  if !st.connected || st.incrFails then
    st
  else
    { st with ledger :=
      { st.ledger with
        dailyCost := some (st.ledger.dailyCost.getD 0 + estimatedCost)
        dailyRequests := st.ledger.dailyRequests + 1
        hourlyRequests := st.ledger.hourlyRequests + 1
        statsTotalCost := st.ledger.statsTotalCost + estimatedCost
        statsTotalRequests := st.ledger.statsTotalRequests + 1
        statsRequestsClaude :=
          st.ledger.statsRequestsClaude + (if modelUsed = "claude" then 1 else 0)
        statsRequestsLocal :=
          st.ledger.statsRequestsLocal + (if modelUsed = "local" then 1 else 0)
        statsTotalTokens := st.ledger.statsTotalTokens + tokensUsed
        statsTotalResponseTimeMs :=
          st.ledger.statsTotalResponseTimeMs + responseTimeMs } }

/-- Result record of `DailyCostTracker.get_cost_projection`
(ai_manager.py:976-1007).  The all-zero early return has no
`weekly_total`/`data_points` keys; they are modelled as 0. -/
structure CostProjection where
  dailyAvg : ℚ
  weeklyTotal : ℚ
  monthlyProjection : ℚ
  confidence : String
  dataPoints : ℕ
deriving DecidableEq

/-- `DailyCostTracker.get_cost_projection` (ai_manager.py:976-1007) applied to
the list of the last seven days' total costs (today first).  `not any(costs)`
is Python truthiness: every entry equal to zero.  The average divides the sum
of all entries by the number of strictly positive entries ("Exclude zero
days"). -/
def getCostProjection (costs : List ℚ) : CostProjection :=
  if costs.all (fun c => decide (c = 0)) then
    { dailyAvg := 0, weeklyTotal := 0, monthlyProjection := 0,
      confidence := "low", dataPoints := 0 }
  else
    let activeDays := (costs.filter (fun c => decide (0 < c))).length
    let dailyAvg := costs.sum / (activeDays : ℚ)
    { dailyAvg := dailyAvg
      weeklyTotal := costs.sum
      monthlyProjection := dailyAvg * 30
      confidence :=
        if activeDays ≥ 5 then "high"
        else if activeDays ≥ 3 then "medium"
        else "low"
      dataPoints := activeDays }

/-! ## Fallback synthesizers -/

/-- The "greeting" bucket of `AIManager._generate_fallback_dialogue`
(ai_manager.py:411-417). -/
def fallbackGreetingResponses : List String :=
  ["Hello there! How are you doing?",
   "Hey! Nice to see you!",
   "Good to meet you, trainer!",
   "Welcome! How can I help you?"]

/-- The "battle" bucket (ai_manager.py:418-423). -/
def fallbackBattleResponses : List String :=
  ["Ready for a battle?",
   "Let\x27s see how strong your monsters are!",
   "I\x27ve been training hard lately!",
   "This should be fun!"]

/-- The "shop" bucket (ai_manager.py:424-429). -/
def fallbackShopResponses : List String :=
  ["Take a look at what I have for sale!",
   "I\x27ve got some great items here!",
   "Need any supplies?",
   "Check out my wares!"]

/-- Bucket selection (ai_manager.py:432-437): unknown interaction types bucket
to "greeting". -/
def fallbackResponsesFor (interactionType : String) : List String :=
  if interactionType = "greeting" then fallbackGreetingResponses
  else if interactionType = "battle" then fallbackBattleResponses
  else if interactionType = "shop" then fallbackShopResponses
  else fallbackGreetingResponses

/-- `AIManager._generate_fallback_dialogue` (ai_manager.py:404-451).
`random.choice` is modelled by an externally supplied draw `pick`, reduced
modulo the bucket size (the default value of `getD` is unreachable since every
bucket has four entries). -/
def generateFallbackDialogue (ctx : NPCInteractionContext)
    (pers : PersonalityTraits) (pick : ℕ) : DialogueResponse :=
  let responses := fallbackResponsesFor ctx.interaction_type
  let selected := responses.getD (pick % responses.length) "Hello there! How are you doing?"
  let selected :=
    if pers.verbosity > (mkRat 7 10 : ℚ) then selected ++ " How has your journey been going?"
    else selected
  { text := selected
    emotion := if pers.friendliness > (mkRat 1 2 : ℚ) then "happy" else "neutral"
    relationship_change := mkRat 1 10 }

/-- `LocalLLMManager._create_fallback_response` (local_llm.py:258-287), the
local adapter's internal fallback. -/
def createFallbackResponse (ctx : NPCInteractionContext)
    (pers : PersonalityTraits) (pick : ℕ) : DialogueResponse :=
  let responses :=
    if ctx.relationship_level > (mkRat 1 2 : ℚ) then
      ["Good to see you again!", "How have you been?", "Nice to chat with you!"]
    else
      ["Hello there!", "How can I help you?", "Welcome to our town!"]
  let text := responses.getD (pick % responses.length) "Hello there!"
  let text :=
    if pers.verbosity > (mkRat 7 10 : ℚ) then text ++ " How\x27s your adventure going?"
    else text
  { text := text
    emotion := if pers.friendliness > (mkRat 1 2 : ℚ) then "happy" else "neutral"
    relationship_change := mkRat 1 10 }

/-! ## String helpers

Python's `str.split()` (whitespace split, our texts use spaces), `in`
(substring containment) and `str.lower()` translated to executable Lean. -/

/-- Python `str.lower()` (character-wise lowering; the modelled texts are
ASCII). -/
def pyLower (s : String) : String := ⟨s.data.map Char.toLower⟩

/-- Worker for `pyWords`: the first argument is the remaining input, the
second the current word accumulated in reverse. -/
def splitWordsAux : List Char → List Char → List String
  | [], acc => if acc.isEmpty then [] else [⟨acc.reverse⟩]
  | c :: cs, acc =>
    if c == ' ' then
      if acc.isEmpty then splitWordsAux cs []
      else ⟨acc.reverse⟩ :: splitWordsAux cs []
    else splitWordsAux cs (c :: acc)

/-- Python `str.split()` — split on runs of whitespace dropping empty pieces —
on texts whose whitespace is spaces. -/
def pyWords (s : String) : List String := splitWordsAux s.data []

/-- Worker for `pySplitDot`. -/
def splitDotAux : List Char → List Char → List String
  | [], acc => [⟨acc.reverse⟩]
  | c :: cs, acc =>
    if c == '.' then ⟨acc.reverse⟩ :: splitDotAux cs []
    else splitDotAux cs (c :: acc)

/-- Python `str.split(".")`: split on every dot, keeping empty pieces. -/
def pySplitDot (s : String) : List String := splitDotAux s.data []

/-- Python `str.strip()` on space-whitespace texts. -/
def pyStrip (s : String) : String :=
  ⟨((s.data.dropWhile (fun c => c == ' ')).reverse.dropWhile
      (fun c => c == ' ')).reverse⟩

/-- Does the character list start with the given pattern? -/
def charsStart : List Char → List Char → Bool
  | _, [] => true
  | [], _ :: _ => false
  | a :: as, b :: bs => a == b && charsStart as bs

/-- Does the character list contain the pattern as a contiguous run? -/
def charsContain : List Char → List Char → Bool
  | [], needle => needle.isEmpty
  | a :: as, needle => charsStart (a :: as) needle || charsContain as needle

/-- Python's `needle in hay` on strings. -/
def strContains (hay needle : String) : Bool :=
  charsContain hay.data needle.data

/-! ## Dialogue cache -/

/-- Rounding of `relationship_level` to one decimal, modelling the `:.1f`
format in the cache-key f-string. -/
def roundTenth (q : ℚ) : ℚ := mkRat (round (10 * q)) 10

/-- `AIManager._get_dialogue_cache_key` (ai_manager.py:453-461): the
fingerprint is built from npc id, interaction type, relationship level
formatted to one decimal, and the memory count.  The source then hashes this
content string with MD5; since the digest is a fixed function of the content,
the key is modelled by the content string itself. -/
def getDialogueCacheKey (npcId : String) (ctx : NPCInteractionContext)
    (memories : List MemoryItem) : String :=
  npcId ++ ":" ++ ctx.interaction_type ++ ":" ++ toString (roundTenth ctx.relationship_level)
    ++ ":" ++ toString memories.length

/-- First-match lookup in the modelled dialogue cache. -/
def lookupResp : List (String × DialogueResponse) → String → Option DialogueResponse
  | [], _ => none
  | (k, r) :: rest, key => if k = key then some r else lookupResp rest key

/-- `AIManager._get_cached_dialogue` (ai_manager.py:463-471): any store error
(including the `AttributeError` when the client is `None`) is caught and the
method returns `None`. -/
def getCachedDialogue (st : RedisModel) (key : String) : Option DialogueResponse :=
  if !st.connected || st.cacheGetFails then none
  else lookupResp st.dialogueCache key

/-- `AIManager._cache_dialogue` (ai_manager.py:473-482): `setex` with the
configured TTL; store errors are caught and logged, leaving the cache as it
was.  A successful write shadows any previous entry for the key (last write
wins). -/
def cacheDialogue (st : RedisModel) (key : String) (r : DialogueResponse) : RedisModel :=
  if !st.connected || st.cacheSetFails then st
  else { st with dialogueCache := (key, r) :: st.dialogueCache }

/-! ## Orchestrator — `AIManager.generate_dialogue` (ai_manager.py:68-197) -/

/-- Orchestrator configuration: `settings.ai_enabled`,
`settings.max_cost_per_day_usd` (config.py), and whether `initialize()` has set
up the hybrid manager (`hybrid_manager is not None`). -/
structure Env where
  aiEnabled : Bool := true
  hybridReady : Bool := true
  maxCostPerDay : ℚ := 50
deriving DecidableEq

/-- ai_manager.py:88-90: once the daily budget is exhausted a `force_claude`
request is downgraded (`force_claude = False`) rather than failing. -/
def forceAfterBudgetCheck (canUseClaude forceClaude : Bool) : Bool :=
  if !canUseClaude && forceClaude then false else forceClaude

/-- Observable outcome of one `generate_dialogue` request: the returned
response, the updated store, and instrumentation counters for what the request
did (how often the budget gate `can_make_request` ran, how many ledger records
were written, and how many times each inference adapter and the orchestrator
entry point were invoked). -/
structure GenResult where
  response : DialogueResponse
  store : RedisModel
  canSpendChecks : ℕ := 0
  ledgerRecords : ℕ := 0
  cloudAdapterCalls : ℕ := 0
  localAdapterCalls : ℕ := 0
  reentries : ℕ := 0
deriving DecidableEq

/-- `AIManager.generate_dialogue` (ai_manager.py:68-197) as Python executes it.

* Cache lookup (line 80-84) and the budget check (line 87-90) precede the
  `try`; neither can raise (all their store errors are swallowed internally).
* Inside the `try`, the emotional-state and gossip lookups (lines 96-118)
  swallow their own errors and only feed the hybrid call, so they do not
  affect any modelled observable.
* When the hybrid path is enabled (line 121), the invocation at line 122
  raises `TypeError` — `gossip_context` is not a parameter of
  `HybridLLMManager.generate_dialogue` (local_llm.py:303-311) — which the
  handler at line 195 catches, returning a fallback response with no cost
  recorded and nothing cached.
* Otherwise (line 180-182) the fallback response is produced without an
  exception and is cached (line 185); no cost is recorded either way, since
  `record_request` only runs inside the hybrid block (lines 156-178). -/
def generateDialogue (env : Env) (npcId : String) (ctx : NPCInteractionContext)
    (pers : PersonalityTraits) (memories : List MemoryItem) (forceClaude : Bool)
    (pick : ℕ) (st : RedisModel) : GenResult :=
  let key := getDialogueCacheKey npcId ctx memories
  match getCachedDialogue st key with
  | some cached => { response := cached, store := st }
  | none =>
    let canUseClaude := canMakeRequest env.maxCostPerDay st
    let _forceClaude := forceAfterBudgetCheck canUseClaude forceClaude
    if env.hybridReady && env.aiEnabled then
      { response := generateFallbackDialogue ctx pers pick, store := st
        canSpendChecks := 1 }
    else
      let r := generateFallbackDialogue ctx pers pick
      { response := r, store := cacheDialogue st key r, canSpendChecks := 1 }

/-! ## Backend router and quality gate — `HybridLLMManager` (local_llm.py:295-397) -/

/-- The hybrid manager's routing configuration: the local-affinity ratio
(`use_local_ratio`, 0.8 in the source), `config.enabled` of the local adapter,
and the outcome of the time-gated `_health_check`. -/
structure HybridConfig where
  useLocalRatio : ℚ := mkRat 4 5
  localEnabled : Bool := true
  localHealthy : Bool := true
deriving DecidableEq

/-- `HybridLLMManager._should_use_local` (local_llm.py:339-361).  `r` is the
uniform draw of `random.random()`.  The `personality` parameter is unused in
the source as well. -/
def shouldUseLocal (cfg : HybridConfig) (ctx : NPCInteractionContext)
    (pers : PersonalityTraits) (memories : List MemoryItem) (r : ℚ) : Bool :=
  if decide (ctx.relationship_level > (mkRat 4 5 : ℚ)) then false
  else if memories.length > 3
      && memories.any (fun m => decide (m.importance > (mkRat 4 5 : ℚ))) then false
  else if ctx.interaction_type = "battle" then false
  else decide (r < cfg.useLocalRatio)

/-- The `use_local` decision of `HybridLLMManager.generate_dialogue`
(local_llm.py:313-318): not forced to Claude, local adapter enabled and
healthy, and `_should_use_local` agrees. -/
def hybridUsesLocal (cfg : HybridConfig) (ctx : NPCInteractionContext)
    (pers : PersonalityTraits) (memories : List MemoryItem)
    (forceClaude : Bool) (r : ℚ) : Bool :=
  !forceClaude && cfg.localEnabled && cfg.localHealthy
    && shouldUseLocal cfg ctx pers memories r

/-- The router selects the Cloud (Claude) branch (local_llm.py:337) exactly
when `use_local` is false. -/
def hybridSelectsCloud (cfg : HybridConfig) (ctx : NPCInteractionContext)
    (pers : PersonalityTraits) (memories : List MemoryItem)
    (forceClaude : Bool) (r : ℚ) : Bool :=
  !(hybridUsesLocal cfg ctx pers memories forceClaude r)

/-- `HybridLLMManager._is_response_too_generic` (local_llm.py:363-397).
Gate (a): with memories present and relationship above 0.3, the response must
share at least one salient word (length > 4) with the top-2 memories.
Gate (b): at least two matches from the fixed generic-phrase list, when there
are memories or the relationship is above 0.2.  (The Python sets are modelled
by lists; only emptiness of the intersection and of the keyword set is
consumed, for which duplicates are irrelevant.) -/
def isResponseTooGeneric (resp : DialogueResponse) (memories : List MemoryItem)
    (ctx : NPCInteractionContext) : Bool :=
  let memoryKeywords :=
    ((memories.take 2).flatMap (fun m => pyWords (pyLower m.content))).filter
      (fun w => w.length > 4)
  let responseWords := pyWords (pyLower resp.text)
  let memoryOverlap := (memoryKeywords.filter (fun w => responseWords.contains w)).length
  if (!memories.isEmpty && decide (ctx.relationship_level > (mkRat 3 10 : ℚ)))
      && (memoryOverlap == 0 && !memoryKeywords.isEmpty) then
    true
  else
    let genericPhrases :=
      ["how can i help", "hello there", "how are you", "nice to see you", "welcome"]
    let genericCount :=
      (genericPhrases.filter (fun p => strContains (pyLower resp.text) p)).length
    genericCount ≥ 2 && (!memories.isEmpty || decide (ctx.relationship_level > (mkRat 1 5 : ℚ)))

/-- `HybridLLMManager.generate_dialogue` (local_llm.py:303-337) as a component
(its body; at the top level the orchestrator's invocation of it fails, see
`generateDialogue`).  The local adapter call at line 323 cannot raise here —
its own health check was already passed in `use_local` within the probe's
refresh interval, and every other failure inside it is caught and converted to
its internal fallback — so its outcome is the supplied `localResp`.  On a
quality-gate rejection (line 327-328), and on the Cloud branch (line 337), the
code calls `claude_manager.generate_dialogue`, which is the orchestrator entry
point `AIManager.generate_dialogue` with `force_claude` defaulting to false. -/
def hybridGenerate (env : Env) (cfg : HybridConfig) (npcId : String)
    (ctx : NPCInteractionContext) (pers : PersonalityTraits)
    (memories : List MemoryItem) (forceClaude : Bool)
    (localResp : DialogueResponse) (r : ℚ) (pick : ℕ) (st : RedisModel) : GenResult :=
  if hybridUsesLocal cfg ctx pers memories forceClaude r then
    if isResponseTooGeneric localResp memories ctx then
      let g := generateDialogue env npcId ctx pers memories false pick st
      { g with localAdapterCalls := g.localAdapterCalls + 1
               reentries := g.reentries + 1 }
    else
      { response := localResp, store := st, localAdapterCalls := 1 }
  else
    let g := generateDialogue env npcId ctx pers memories false pick st
    { g with reentries := g.reentries + 1 }

/-! ## Response validator — `DialogueValidator` (validation.py)

The validator's five checks combine substring keyword scans (translated
directly) with `re.search` calls on fixed pattern families.  The outcomes of
the regular-expression searches are supplied as oracle booleans in
`RegexScan` — one per pattern family, matching the granularity at which the
source consumes them (each family's inner loop `break`s on the first matching
pattern, so only "some pattern of this family matched" is observable in the
score). -/

/-- Severity levels (validation.py:16-21). -/
inductive ValidationSeverity where
  | info
  | warning
  | error
  | critical
deriving DecidableEq

/-- A canon fact (validation.py:34-40). -/
structure CanonFact where
  factId : String
  category : String
  fact : String
  keywords : List String
  importance : ℚ := 1
deriving DecidableEq

/-- The canon database loaded by `initialize_canon_database`
(validation.py:52-136), in insertion order. -/
def canonFacts : List CanonFact :=
  [{ factId := "world_setting", category := "lore",
     fact := "Tuxemon takes place in a world where monsters can be tamed and trained by humans",
     keywords := ["world", "setting", "monsters", "tamed", "trained", "humans"],
     importance := 1 },
   { factId := "monster_mechanics", category := "mechanics",
     fact := "Monsters have elements, stats, and can learn techniques in battle",
     keywords := ["monsters", "elements", "stats", "techniques", "battle", "combat"],
     importance := mkRat 9 10 },
   { factId := "capture_system", category := "mechanics",
     fact := "Wild monsters can be captured using capture devices and items",
     keywords := ["capture", "wild", "monsters", "devices", "items", "catch"],
     importance := mkRat 4 5 },
   { factId := "trainer_culture", category := "lore",
     fact := "People who train monsters are called trainers and often travel to improve their skills",
     keywords := ["trainers", "travel", "improve", "skills", "training", "journey"],
     importance := mkRat 7 10 },
   { factId := "no_violence_humans", category := "constraints",
     fact := "Tuxemon is family-friendly: no violence between humans, no death, no inappropriate content",
     keywords := ["violence", "death", "inappropriate", "family-friendly", "safe"],
     importance := 1 },
   { factId := "healing_centers", category := "lore",
     fact := "Towns have healing centers where trainers can restore their monsters\x27 health",
     keywords := ["healing", "centers", "towns", "restore", "health", "monsters"],
     importance := mkRat 3 5 },
   { factId := "starting_town", category := "locations",
     fact := "Players begin their journey in a peaceful starting town with friendly NPCs",
     keywords := ["starting", "town", "peaceful", "friendly", "begin", "journey"],
     importance := mkRat 4 5 },
   { factId := "no_meta_references", category := "constraints",
     fact := "NPCs should never reference being AI, being in a game, or break the fourth wall",
     keywords := ["AI", "game", "player", "character", "fourth wall", "meta"],
     importance := 1 },
   { factId := "consistent_personality", category := "constraints",
     fact := "NPCs must maintain consistent personality traits and behavior patterns",
     keywords := ["personality", "consistent", "behavior", "traits", "character"],
     importance := mkRat 9 10 },
   { factId := "appropriate_knowledge", category := "constraints",
     fact := "NPCs should only know information their character would realistically know",
     keywords := ["knowledge", "realistic", "character", "information", "know"],
     importance := mkRat 4 5 }]

/-- Oracle outcomes of the `re.search` pattern families used by the validator:
`contradiction` for the four canon contradiction patterns
(validation.py:224-229, identical for every fact), one flag per forbidden
content category (validation.py:246-266), the two tone patterns
(validation.py:292, :299), and the meta-reference family
(validation.py:335-343). -/
structure RegexScan where
  contradiction : Bool := false
  violence : Bool := false
  inappropriate : Bool := false
  realWorld : Bool := false
  metaGaming : Bool := false
  friendlyTone : Bool := false
  formalTone : Bool := false
  metaRef : Bool := false
deriving DecidableEq

/-- `DialogueValidator._check_canon_violations` (validation.py:205-237): for
each non-constraint fact whose keyword list has a substring hit in the
lowercased text, a contradiction-pattern match appends an issue and multiplies
the factor by 0.7 (the inner pattern loop `break`s after the first match). -/
def checkCanonViolations (text : String) (contradictionMatch : Bool) :
    List String × ℚ :=
  canonFacts.foldl
    (fun acc fact =>
      if fact.category ≠ "constraints"
          ∧ fact.keywords.any (fun kw => strContains (pyLower text) kw)
          ∧ contradictionMatch = true then
        (acc.1 ++ ["Potential canon contradiction: " ++ fact.fact], acc.2 * (mkRat 7 10))
      else acc)
    ([], 1)

/-- `DialogueValidator._check_forbidden_content` (validation.py:239-275): per
category, the first matching pattern appends an issue and multiplies the
factor by 0.5, then `break`s to the next category. -/
def checkForbiddenContent (scan : RegexScan) : List String × ℚ :=
  [("violence", scan.violence), ("inappropriate", scan.inappropriate),
   ("real_world", scan.realWorld), ("meta_gaming", scan.metaGaming)].foldl
    (fun acc cat =>
      if cat.2 then
        (acc.1 ++ ["Contains forbidden " ++ cat.1 ++ " content"], acc.2 * (mkRat 1 2))
      else acc)
    ([], 1)

/-- `DialogueValidator._check_tone_consistency` (validation.py:277-327):
relationship-appropriate tone (a 0.9 factor for over-familiar tone with
strangers, or over-formal tone with close friends), then — when personality
traits were supplied — verbosity versus word count and friendliness versus
emotion. -/
def checkToneConsistency (dialogue : DialogueResponse)
    (ctx : NPCInteractionContext) (traits : Option PersonalityTraits)
    (scan : RegexScan) : List String × ℚ :=
  let acc : List String × ℚ := ([], 1)
  let acc :=
    if decide (ctx.relationship_level < (mkRat 1 5 : ℚ)) && scan.friendlyTone then
      (acc.1 ++ ["Too familiar tone for low relationship level"], acc.2 * (mkRat 9 10))
    else if decide (ctx.relationship_level > (mkRat 4 5 : ℚ)) && scan.formalTone then
      (acc.1 ++ ["Too formal tone for high relationship level"], acc.2 * (mkRat 9 10))
    else acc
  match traits with
  | none => acc
  | some t =>
    let wordCount := (pyWords dialogue.text).length
    let acc :=
      if decide (t.verbosity < (mkRat 3 10 : ℚ)) && wordCount > 50 then
        (acc.1 ++ ["Too verbose for quiet personality"], acc.2 * (mkRat 9 10))
      else if decide (t.verbosity > (mkRat 7 10 : ℚ)) && wordCount < 10 then
        (acc.1 ++ ["Too brief for talkative personality"], acc.2 * (mkRat 9 10))
      else acc
    if decide (t.friendliness < (mkRat 3 10 : ℚ))
        && ["happy", "excited"].contains dialogue.emotion then
      (acc.1 ++ ["Too positive emotion for reserved personality"], acc.2 * (mkRat 9 10))
    else if decide (t.friendliness > (mkRat 7 10 : ℚ))
        && ["angry", "sad"].contains dialogue.emotion then
      (acc.1 ++ ["Negative emotion unusual for friendly personality"], acc.2 * (mkRat 19 20))
    else acc

/-- `DialogueValidator._check_meta_references` (validation.py:329-351): the
first matching meta pattern multiplies the factor by 0.3 and `break`s. -/
def checkMetaReferences (metaMatch : Bool) : List String × ℚ :=
  if metaMatch then
    (["Contains meta-gaming or fourth wall breaking references"], mkRat 3 10)
  else ([], 1)

/-- `DialogueValidator._check_mobile_constraints` (validation.py:353-378):
word count above 100 (factor 0.8), any sentence longer than 200 characters
after stripping (factor 0.9, applied once), and special characters that may
not render (factor 0.95). -/
def checkMobileConstraints (text : String) : List String × ℚ :=
  let acc : List String × ℚ := ([], 1)
  let wordCount := (pyWords text).length
  let acc :=
    if wordCount > 100 then
      (acc.1 ++ ["Dialogue too long for mobile (" ++ toString wordCount
        ++ " words, max 100)"], acc.2 * (mkRat 4 5))
    else acc
  let acc :=
    if (pySplitDot text).any (fun s => (pyStrip s).length > 200) then
      (acc.1 ++ ["Contains very long sentences that may be hard to read on mobile"],
       acc.2 * (mkRat 9 10))
    else acc
  if ["€", "£", "¥", "©", "®", "™", "§"].any (fun c => strContains text c) then
    (acc.1 ++ ["Contains special characters that may not display properly"],
     acc.2 * (mkRat 19 20))
  else acc

/-- Result of `validate_dialogue` (validation.py:24-31). -/
structure ValidationResult where
  is_valid : Bool
  severity : ValidationSeverity
  issues : List String
  score : ℚ
  suggested_fixes : List String
deriving DecidableEq

/-- `DialogueValidator._generate_suggestions` (validation.py:380-405):
keyword-matching over the issue texts. -/
def generateSuggestions (issues : List String) : List String :=
  let suggestions := issues.foldl
    (fun acc issue =>
      if strContains (pyLower issue) "too long" then
        acc ++ ["Shorten the dialogue to under 100 words"]
      else if strContains (pyLower issue) "forbidden" then
        acc ++ ["Remove inappropriate content and keep dialogue family-friendly"]
      else if strContains (pyLower issue) "meta" || strContains (pyLower issue) "fourth wall" then
        acc ++ ["Stay in character and avoid breaking immersion"]
      else if strContains (pyLower issue) "tone" then
        acc ++ ["Adjust tone to match NPC personality and relationship level"]
      else if strContains (pyLower issue) "canon" then
        acc ++ ["Ensure dialogue aligns with established game lore and mechanics"]
      else acc)
    []
  if suggestions.isEmpty then ["Minor improvements could enhance dialogue quality"]
  else suggestions

/-- `DialogueValidator.validate_dialogue` (validation.py:147-203): runs the
five checks, multiplies their score factors into the running score, derives
the severity from the final score and `is_valid` from score and severity. -/
def validateDialogue (dialogue : DialogueResponse) (ctx : NPCInteractionContext)
    (traits : Option PersonalityTraits) (scan : RegexScan) : ValidationResult :=
  let canon := checkCanonViolations dialogue.text scan.contradiction
  let content := checkForbiddenContent scan
  let tone := checkToneConsistency dialogue ctx traits scan
  let meta := checkMetaReferences scan.metaRef
  let length := checkMobileConstraints dialogue.text
  let score : ℚ := 1 * canon.2 * content.2 * tone.2 * meta.2 * length.2
  let issues := canon.1 ++ content.1 ++ tone.1 ++ meta.1 ++ length.1
  let severity : ValidationSeverity :=
    if score < (mkRat 1 2 : ℚ) then .critical
    else if score < (mkRat 7 10 : ℚ) then .error
    else if score < (mkRat 9 10 : ℚ) then .warning
    else .info
  { is_valid := decide ((mkRat 7 10 : ℚ) ≤ score) && decide (severity ≠ .critical)
    severity := severity
    issues := issues
    score := score
    suggested_fixes := generateSuggestions issues }

/-! ## Helper lemmas -/

theorem append_ne_empty (s t : String) (hs : s ≠ "") : s ++ t ≠ "" := by
  intro h
  apply hs
  cases s with
  | mk ds =>
    cases t with
    | mk dt =>
      have hd : ds ++ dt = ([] : List Char) := congrArg String.data h
      rcases List.append_eq_nil.mp hd with ⟨h1, _⟩
      simp [h1]

theorem list_mem_of_getElem_opt {α : Type} (l : List α) (n : ℕ) (a : α)
    (h : l[n]? = some a) : a ∈ l := by
  induction l generalizing n with
  | nil => simp at h
  | cons b t ih =>
    cases n with
    | zero =>
      simp at h
      simp [h]
    | succ m =>
      simp at h
      exact List.mem_cons_of_mem _ (ih m h)

theorem getD_ne_empty (l : List String) (d : String) (n : ℕ)
    (hl : ∀ s ∈ l, s ≠ "") (hd : d ≠ "") : l.getD n d ≠ "" := by
  rw [List.getD_eq_getElem?_getD]
  cases h : l[n]? with
  | none => simpa using hd
  | some s =>
    have hs : s ∈ l := list_mem_of_getElem_opt l n s h
    simpa using hl s hs

theorem lookupResp_mem (l : List (String × DialogueResponse)) (key : String)
    (r : DialogueResponse) (h : lookupResp l key = some r) : (key, r) ∈ l := by
  induction l with
  | nil => simp [lookupResp] at h
  | cons p rest ih =>
    obtain ⟨k, v⟩ := p
    by_cases hk : k = key
    · subst hk
      simp [lookupResp] at h
      subst h
      exact List.mem_cons_self _ _
    · simp [lookupResp, hk] at h
      exact List.mem_cons_of_mem _ (ih h)

theorem fallbackResponsesFor_ne_empty (it : String) :
    ∀ s ∈ fallbackResponsesFor it, s ≠ "" := by
  intro s hs
  unfold fallbackResponsesFor at hs
  split_ifs at hs <;>
    · simp only [fallbackGreetingResponses, fallbackBattleResponses,
        fallbackShopResponses, List.mem_cons, List.not_mem_nil, or_false] at hs
      rcases hs with rfl | rfl | rfl | rfl <;> decide

theorem generateFallbackDialogue_text_ne (ctx : NPCInteractionContext)
    (pers : PersonalityTraits) (pick : ℕ) :
    (generateFallbackDialogue ctx pers pick).text ≠ "" := by
  unfold generateFallbackDialogue
  have hbase : (fallbackResponsesFor ctx.interaction_type).getD
      (pick % (fallbackResponsesFor ctx.interaction_type).length)
      "Hello there! How are you doing?" ≠ "" :=
    getD_ne_empty _ _ _ (fallbackResponsesFor_ne_empty ctx.interaction_type) (by decide)
  by_cases hv : pers.verbosity > (mkRat 7 10 : ℚ)
  · simpa [hv] using append_ne_empty _ " How has your journey been going?" hbase
  · simpa [hv] using hbase

theorem generateFallbackDialogue_emotion_allowed (ctx : NPCInteractionContext)
    (pers : PersonalityTraits) (pick : ℕ) :
    (generateFallbackDialogue ctx pers pick).emotion ∈ allowedEmotions := by
  unfold generateFallbackDialogue
  dsimp only
  split_ifs <;> decide

/-- Stores whose live cached dialogues were produced by this pipeline: every
entry carries non-empty text and an allowed emotion. -/
def StoreWF (st : RedisModel) : Prop :=
  ∀ p ∈ st.dialogueCache, p.2.text ≠ "" ∧ p.2.emotion ∈ allowedEmotions

theorem generateDialogue_props (env : Env) (npcId : String)
    (ctx : NPCInteractionContext) (pers : PersonalityTraits)
    (memories : List MemoryItem) (forceClaude : Bool) (pick : ℕ)
    (st : RedisModel) (hwf : StoreWF st) :
    (generateDialogue env npcId ctx pers memories forceClaude pick st).response.text ≠ ""
      ∧ (generateDialogue env npcId ctx pers memories forceClaude pick
          st).response.emotion ∈ allowedEmotions := by
  simp only [generateDialogue]
  cases hc : getCachedDialogue st (getDialogueCacheKey npcId ctx memories) with
  | some cached =>
    simp only [hc]
    have hmem : (getDialogueCacheKey npcId ctx memories, cached) ∈ st.dialogueCache := by
      unfold getCachedDialogue at hc
      split at hc
      · exact absurd hc (by simp)
      · exact lookupResp_mem _ _ _ hc
    exact hwf _ hmem
  | none =>
    simp only [hc]
    by_cases hb : env.hybridReady && env.aiEnabled <;>
      simp [hb, generateFallbackDialogue_text_ne,
        generateFallbackDialogue_emotion_allowed]

theorem generateDialogue_trace (env : Env) (npcId : String)
    (ctx : NPCInteractionContext) (pers : PersonalityTraits)
    (memories : List MemoryItem) (forceClaude : Bool) (pick : ℕ)
    (st : RedisModel) :
    (generateDialogue env npcId ctx pers memories forceClaude pick st).reentries = 0
      ∧ (generateDialogue env npcId ctx pers memories forceClaude pick
          st).cloudAdapterCalls = 0
      ∧ (generateDialogue env npcId ctx pers memories forceClaude pick
          st).ledgerRecords = 0
      ∧ (getCachedDialogue st (getDialogueCacheKey npcId ctx memories) = none →
          (generateDialogue env npcId ctx pers memories forceClaude pick
            st).canSpendChecks = 1) := by
  simp only [generateDialogue]
  cases hc : getCachedDialogue st (getDialogueCacheKey npcId ctx memories) with
  | some cached => simp [hc]
  | none =>
    simp only [hc]
    by_cases hb : env.hybridReady && env.aiEnabled <;> simp [hb]

/-! ## Claims -/

/-- Claim C10: every response produced by a fallback path — the orchestrator's
fallback synthesizer `_generate_fallback_dialogue` and the local adapter's
internal fallback `_create_fallback_response` — carries
`relationship_change = 0.1`, for every context, personality and random pick. -/
theorem c10_fallback_relationship_change (ctx : NPCInteractionContext)
    (pers : PersonalityTraits) (pick : ℕ) :
    (generateFallbackDialogue ctx pers pick).relationship_change = mkRat 1 10
      ∧ (createFallbackResponse ctx pers pick).relationship_change = mkRat 1 10 := by
  exact ⟨rfl, rfl⟩

/-- Claim C7: whenever `relationship_level > 0.8`, the router selects the
Cloud (Claude) backend — `_should_use_local` returns false, so the hybrid
manager's `use_local` is false and the Claude branch is taken — for every
local-affinity ratio, every random draw, and every force flag. -/
theorem c7_high_relationship_routes_cloud (cfg : HybridConfig)
    (ctx : NPCInteractionContext) (pers : PersonalityTraits)
    (memories : List MemoryItem) (forceClaude : Bool) (r : ℚ)
    (h : ctx.relationship_level > (mkRat 4 5 : ℚ)) :
    shouldUseLocal cfg ctx pers memories r = false
      ∧ hybridSelectsCloud cfg ctx pers memories forceClaude r = true := by
  have hs : shouldUseLocal cfg ctx pers memories r = false := by
    unfold shouldUseLocal
    simp [decide_eq_true h]
  refine ⟨hs, ?_⟩
  unfold hybridSelectsCloud hybridUsesLocal
  simp [hs]

/-- Witness for C7 at relationship level 0.9. -/
theorem c7_high_relationship_routes_cloud_witness :
    ({ interaction_type := "greeting", relationship_level := mkRat 9 10 } :
        NPCInteractionContext).relationship_level > (mkRat 4 5 : ℚ)
      ∧ shouldUseLocal {} { interaction_type := "greeting", relationship_level := mkRat 9 10 }
          {} [] 0 = false
      ∧ hybridSelectsCloud {} { interaction_type := "greeting", relationship_level := mkRat 9 10 }
          {} [] false 0 = true := by
  refine ⟨by norm_num, ?_, ?_⟩
  · exact (c7_high_relationship_routes_cloud {} _ {} [] false 0 (by norm_num)).1
  · exact (c7_high_relationship_routes_cloud {} _ {} [] false 0 (by norm_num)).2

/-- Claim C8: the ledger fails open.  If the store read inside
`can_make_request` raises, the method returns true; if a store operation
inside `record_request` raises, the error is swallowed and the store is left
unchanged; and with a failing ledger store the orchestrator still produces a
dialogue response with non-empty text, so a recording failure never prevents a
response. -/
theorem c8_ledger_fails_open (st : RedisModel) (maxCost cost : ℚ)
    (modelUsed : String) (tok rt : ℕ) :
    (st.hgetFails = true → canMakeRequest maxCost st = true)
      ∧ (st.incrFails = true → recordRequest cost modelUsed tok rt st = st)
      ∧ (StoreWF st → ∀ (env : Env) (npcId : String) (ctx : NPCInteractionContext)
          (pers : PersonalityTraits) (memories : List MemoryItem)
          (forceClaude : Bool) (pick : ℕ),
          (generateDialogue env npcId ctx pers memories forceClaude pick
            st).response.text ≠ "") := by
  refine ⟨?_, ?_, ?_⟩
  · intro h
    unfold canMakeRequest
    simp [h]
  · intro h
    unfold recordRequest
    simp [h]
  · intro hwf env npcId ctx pers memories forceClaude pick
    exact (generateDialogue_props env npcId ctx pers memories forceClaude pick st hwf).1

/-- Witness for C8 on a store whose ledger reads and writes both raise. -/
theorem c8_ledger_fails_open_witness :
    canMakeRequest 50 { hgetFails := true, incrFails := true } = true
      ∧ recordRequest (mkRat 1 50) "claude" 12 100 { hgetFails := true, incrFails := true }
          = { hgetFails := true, incrFails := true }
      ∧ (generateDialogue {} "npc-1" { interaction_type := "greeting", relationship_level := 0 }
          {} [] false 0 { hgetFails := true, incrFails := true }).response.text ≠ "" := by
  refine ⟨?_, ?_, ?_⟩
  · exact (c8_ledger_fails_open { hgetFails := true, incrFails := true } 50 (mkRat 1 50)
      "claude" 12 100).1 rfl
  · exact (c8_ledger_fails_open { hgetFails := true, incrFails := true } 50 (mkRat 1 50)
      "claude" 12 100).2.1 rfl
  · exact (c8_ledger_fails_open { hgetFails := true, incrFails := true } 50 (mkRat 1 50)
      "claude" 12 100).2.2 (by intro p hp; simp at hp) {} "npc-1" _ {} [] false 0

/-- Claim C1: for every valid input and every combination of backend, cache,
validator, or ledger failures, `generate_dialogue` returns a DialogueResponse
with non-empty text and an emotion from the allowed set, and never raises.
The "never raises" part is structural in the embedding: `generateDialogue`
is total, with the one exception inside its guarded region (the failing hybrid
invocation) caught by the handler at ai_manager.py:195, and every store
failure mode of `st` swallowed inside the helpers.  The hypothesis `StoreWF`
states that any live cached entries were produced by this same pipeline. -/
theorem c1_generate_dialogue_total_and_wellformed (env : Env) (npcId : String)
    (ctx : NPCInteractionContext) (pers : PersonalityTraits)
    (memories : List MemoryItem) (forceClaude : Bool) (pick : ℕ)
    (st : RedisModel) (hwf : StoreWF st) :
    (generateDialogue env npcId ctx pers memories forceClaude pick st).response.text ≠ ""
      ∧ (generateDialogue env npcId ctx pers memories forceClaude pick
          st).response.emotion ∈ allowedEmotions :=
  generateDialogue_props env npcId ctx pers memories forceClaude pick st hwf

/-- Witness for C1: a request on an empty store, with every ledger and cache
failure flag raised at once, still yields well-formed canned dialogue. -/
theorem c1_generate_dialogue_total_and_wellformed_witness :
    (generateDialogue {} "npc-9"
        { interaction_type := "battle", relationship_level := mkRat 1 2 } {} [] true 0
        { connected := true, hgetFails := true, incrFails := true,
          cacheGetFails := true, cacheSetFails := true }).response.text ≠ ""
      ∧ (generateDialogue {} "npc-9"
          { interaction_type := "battle", relationship_level := mkRat 1 2 } {} [] true 0
          { connected := true, hgetFails := true, incrFails := true,
            cacheGetFails := true, cacheSetFails := true }).response.emotion
          ∈ allowedEmotions :=
  c1_generate_dialogue_total_and_wellformed {} "npc-9"
    { interaction_type := "battle", relationship_level := mkRat 1 2 } {} [] true 0
    { connected := true, hgetFails := true, incrFails := true,
      cacheGetFails := true, cacheSetFails := true }
    (by intro p hp; simp at hp)

/-- Counterexample to claim C2 ("once daily cost ≥ cap the router never
selects Cloud, even with force_cloud"): with today's cost exactly at the 50
cap, `can_make_request` is false and the orchestrator clears the force flag
(ai_manager.py:88-90), but for a battle interaction `_should_use_local`
returns false (local_llm.py:357-358), so the hybrid manager's `use_local` is
false and the Claude branch (local_llm.py:337) is selected anyway. -/
theorem c2_counterexample :
    canMakeRequest 50 { ledger := { dailyCost := some 50 } } = false
      ∧ forceAfterBudgetCheck
          (canMakeRequest 50 { ledger := { dailyCost := some 50 } }) true = false
      ∧ hybridSelectsCloud {} { interaction_type := "battle", relationship_level := mkRat 1 2 }
          {} []
          (forceAfterBudgetCheck
            (canMakeRequest 50 { ledger := { dailyCost := some 50 } }) true) 0
          = true := by
  decide

/-- Claim C2 amended: once today's accumulated cost reaches the daily cap,
`can_make_request()` returns false and a force_cloud request is downgraded to
a non-forced one — but the router may still select the Cloud backend through
its other rules (high relationship, battle interactions, important memories,
or the random draw). -/
theorem c2_budget_gate_and_downgrade (st : RedisModel) (c maxCost : ℚ)
    (forceClaude : Bool) (hconn : st.connected = true)
    (hread : st.hgetFails = false) (hcost : st.ledger.dailyCost = some c)
    (hcap : maxCost ≤ c) :
    canMakeRequest maxCost st = false
      ∧ forceAfterBudgetCheck (canMakeRequest maxCost st) forceClaude = false := by
  have hfalse : canMakeRequest maxCost st = false := by
    unfold canMakeRequest
    simp [hconn, hread, hcost, decide_eq_false (not_lt.mpr hcap)]
  refine ⟨hfalse, ?_⟩
  rw [hfalse]
  cases forceClaude <;> rfl

/-- Witness for C2's amended statement at cost 60 against a cap of 50. -/
theorem c2_budget_gate_and_downgrade_witness :
    ({ ledger := { dailyCost := some 60 } } : RedisModel).connected = true
      ∧ (50 : ℚ) ≤ 60
      ∧ canMakeRequest 50 { ledger := { dailyCost := some 60 } } = false
      ∧ forceAfterBudgetCheck
          (canMakeRequest 50 { ledger := { dailyCost := some 60 } }) true = false :=
  ⟨rfl, by norm_num,
    (c2_budget_gate_and_downgrade { ledger := { dailyCost := some 60 } } 60 50 true
      rfl rfl rfl (by norm_num)).1,
    (c2_budget_gate_and_downgrade { ledger := { dailyCost := some 60 } } 60 50 true
      rfl rfl rfl (by norm_num)).2⟩

/-- Claim C3: a request that succeeds on no backend adapter creates no
budget-ledger cost record.  In the code as written this holds for every
request — `record_request` only runs inside the hybrid block
(ai_manager.py:156-178), and that block is never reached because the hybrid
invocation at line 122 fails on its unexpected `gossip_context` keyword — so
the ledger counters (daily cost, request counts, token totals, latency
totals) are unchanged by every `generate_dialogue` call, and the number of
ledger records written is zero. -/
theorem c3_no_record_without_adapter_success (env : Env) (npcId : String)
    (ctx : NPCInteractionContext) (pers : PersonalityTraits)
    (memories : List MemoryItem) (forceClaude : Bool) (pick : ℕ)
    (st : RedisModel) :
    (generateDialogue env npcId ctx pers memories forceClaude pick st).store.ledger
        = st.ledger
      ∧ (generateDialogue env npcId ctx pers memories forceClaude pick
          st).ledgerRecords = 0 := by
  simp only [generateDialogue]
  cases hc : getCachedDialogue st (getDialogueCacheKey npcId ctx memories) with
  | some cached => simp [hc]
  | none =>
    simp only [hc]
    by_cases hb : env.hybridReady && env.aiEnabled
    · simp [hb]
    · have hcache : (cacheDialogue st (getDialogueCacheKey npcId ctx memories)
          (generateFallbackDialogue ctx pers pick)).ledger = st.ledger := by
        unfold cacheDialogue
        split <;> rfl
      simp [hb, hcache]

theorem sum_filter_pos (l : List ℚ) (h : ∀ c ∈ l, 0 ≤ c) :
    (l.filter (fun c => decide (0 < c))).sum = l.sum := by
  induction l with
  | nil => simp
  | cons c t ih =>
    have hc : 0 ≤ c := h c (List.mem_cons_self _ _)
    have ht : ∀ x ∈ t, 0 ≤ x := fun x hx => h x (List.mem_cons_of_mem _ hx)
    by_cases h0 : 0 < c
    · simp [List.filter_cons, h0, ih ht]
    · have hz : c = 0 := le_antisymm (not_lt.mp h0) hc
      simp [List.filter_cons, h0, ih ht, hz]

/-- Claim C9: the cost projection averages the last seven days' costs over the
days with non-zero cost and multiplies by 30 for the monthly figure, with
confidence low below 3 active days, medium for 3-4, and high for 5 or more. -/
theorem c9_cost_projection (costs : List ℚ) (hlen : costs.length = 7)
    (hpos : ∀ c ∈ costs, 0 ≤ c) :
    (getCostProjection costs).confidence =
        (if (costs.filter (fun c => decide (0 < c))).length ≥ 5 then "high"
         else if (costs.filter (fun c => decide (0 < c))).length ≥ 3 then "medium"
         else "low")
      ∧ (0 < (costs.filter (fun c => decide (0 < c))).length →
          (getCostProjection costs).monthlyProjection =
            ((costs.filter (fun c => decide (0 < c))).sum
              / ((costs.filter (fun c => decide (0 < c))).length : ℚ)) * 30) := by
  have hsum := sum_filter_pos costs hpos
  by_cases hz : costs.all (fun c => decide (c = 0))
  · have hfilter : costs.filter (fun c => decide (0 < c)) = [] := by
      rw [List.filter_eq_nil_iff]
      intro c hc
      have : c = 0 := by simpa using (List.all_eq_true.mp hz) c hc
      simp [this]
    unfold getCostProjection
    rw [if_pos hz]
    simp [hfilter]
  · unfold getCostProjection
    rw [if_neg hz]
    exact ⟨rfl, fun _ => by rw [hsum]⟩

/-- Witness for C9 on the week [1, 2, 0, 0, 0, 0, 0]: two active days give
confidence "low" and a monthly projection of (3/2) * 30 = 45. -/
theorem c9_cost_projection_witness :
    ([(1 : ℚ), 2, 0, 0, 0, 0, 0].length = 7)
      ∧ (getCostProjection [(1 : ℚ), 2, 0, 0, 0, 0, 0]).confidence = "low"
      ∧ (getCostProjection [(1 : ℚ), 2, 0, 0, 0, 0, 0]).monthlyProjection = 45 := by
  have h := c9_cost_projection [(1 : ℚ), 2, 0, 0, 0, 0, 0] (by decide)
    (by intro c hc; fin_cases hc <;> norm_num)
  have hf : [(1 : ℚ), 2, 0, 0, 0, 0, 0].filter (fun c => decide (0 < c)) = [1, 2] := by
    decide
  refine ⟨by decide, ?_, ?_⟩
  · rw [h.1]
    decide
  · rw [h.2 (by decide), hf]
    norm_num

theorem severity_spec (s : ℚ) :
    ((if s < mkRat 1 2 then ValidationSeverity.critical
      else if s < mkRat 7 10 then ValidationSeverity.error
      else if s < mkRat 9 10 then ValidationSeverity.warning
      else ValidationSeverity.info) = ValidationSeverity.critical ↔ s < mkRat 1 2)
    ∧ ((if s < mkRat 1 2 then ValidationSeverity.critical
        else if s < mkRat 7 10 then ValidationSeverity.error
        else if s < mkRat 9 10 then ValidationSeverity.warning
        else ValidationSeverity.info) = ValidationSeverity.error
        ↔ mkRat 1 2 ≤ s ∧ s < mkRat 7 10)
    ∧ ((if s < mkRat 1 2 then ValidationSeverity.critical
        else if s < mkRat 7 10 then ValidationSeverity.error
        else if s < mkRat 9 10 then ValidationSeverity.warning
        else ValidationSeverity.info) = ValidationSeverity.warning
        ↔ mkRat 7 10 ≤ s ∧ s < mkRat 9 10)
    ∧ ((if s < mkRat 1 2 then ValidationSeverity.critical
        else if s < mkRat 7 10 then ValidationSeverity.error
        else if s < mkRat 9 10 then ValidationSeverity.warning
        else ValidationSeverity.info) = ValidationSeverity.info ↔ mkRat 9 10 ≤ s) := by
  have n1 : (mkRat 1 2 : ℚ) < mkRat 7 10 := by decide
  have n2 : (mkRat 7 10 : ℚ) < mkRat 9 10 := by decide
  refine ⟨?_, ?_, ?_, ?_⟩ <;> split_ifs with h1 h2 h3 <;> simp_all <;>
    first
      | linarith
      | (intro h; linarith)

/-- Claim C5: the validator's final score is the product of the five check
factors; severity is critical below 0.5, error on [0.5, 0.7), warning on
[0.7, 0.9) and info otherwise; and `is_valid` holds exactly when the score is
at least 0.7 and the severity is not critical. -/
theorem c5_validator_scoring (d : DialogueResponse) (ctx : NPCInteractionContext)
    (traits : Option PersonalityTraits) (scan : RegexScan) :
    (validateDialogue d ctx traits scan).score =
        (checkCanonViolations d.text scan.contradiction).2
          * (checkForbiddenContent scan).2
          * (checkToneConsistency d ctx traits scan).2
          * (checkMetaReferences scan.metaRef).2
          * (checkMobileConstraints d.text).2
      ∧ ((validateDialogue d ctx traits scan).severity = ValidationSeverity.critical
          ↔ (validateDialogue d ctx traits scan).score < mkRat 1 2)
      ∧ ((validateDialogue d ctx traits scan).severity = ValidationSeverity.error
          ↔ mkRat 1 2 ≤ (validateDialogue d ctx traits scan).score
            ∧ (validateDialogue d ctx traits scan).score < mkRat 7 10)
      ∧ ((validateDialogue d ctx traits scan).severity = ValidationSeverity.warning
          ↔ mkRat 7 10 ≤ (validateDialogue d ctx traits scan).score
            ∧ (validateDialogue d ctx traits scan).score < mkRat 9 10)
      ∧ ((validateDialogue d ctx traits scan).severity = ValidationSeverity.info
          ↔ mkRat 9 10 ≤ (validateDialogue d ctx traits scan).score)
      ∧ ((validateDialogue d ctx traits scan).is_valid = true
          ↔ mkRat 7 10 ≤ (validateDialogue d ctx traits scan).score
            ∧ (validateDialogue d ctx traits scan).severity
                ≠ ValidationSeverity.critical) := by
  have hs := severity_spec
    (1 * (checkCanonViolations d.text scan.contradiction).2
      * (checkForbiddenContent scan).2
      * (checkToneConsistency d ctx traits scan).2
      * (checkMetaReferences scan.metaRef).2
      * (checkMobileConstraints d.text).2)
  refine ⟨?_, ?_, ?_, ?_, ?_, ?_⟩
  · simp only [validateDialogue]
    ring
  · simpa only [validateDialogue] using hs.1
  · simpa only [validateDialogue] using hs.2.1
  · simpa only [validateDialogue] using hs.2.2.1
  · simpa only [validateDialogue] using hs.2.2.2
  · simp only [validateDialogue, Bool.and_eq_true, decide_eq_true_eq]

/-- Evaluation of the code at C4's failing input, with AI generation enabled
(the default configuration): two `generate_dialogue` calls with identical
(npc_id, interaction_type, relationship_level, memory count), back to back and
hence within any positive TTL, on an initially empty store.  The first call
leaves the store unchanged — the hybrid invocation failed and the exception
path skips `_cache_dialogue` — so the second call misses the cache, draws an
independent canned line, and returns different text. -/
theorem c4_cache_bypassed_failing_input :
    (generateDialogue {} "npc-7"
        { interaction_type := "greeting", relationship_level := mkRat 1 2 }
        {} [] false 0 {}).store = ({} : RedisModel)
      ∧ (generateDialogue {} "npc-7"
          { interaction_type := "greeting", relationship_level := mkRat 1 2 }
          {} [] false 0 {}).response.text = "Hello there! How are you doing?"
      ∧ (generateDialogue {} "npc-7"
          { interaction_type := "greeting", relationship_level := mkRat 1 2 }
          {} [] false 1
          (generateDialogue {} "npc-7"
            { interaction_type := "greeting", relationship_level := mkRat 1 2 }
            {} [] false 0 {}).store).response.text = "Hey! Nice to see you!"
      ∧ (generateDialogue {} "npc-7"
            { interaction_type := "greeting", relationship_level := mkRat 1 2 }
            {} [] false 0 {}).response.text
          ≠ (generateDialogue {} "npc-7"
              { interaction_type := "greeting", relationship_level := mkRat 1 2 }
              {} [] false 1
              (generateDialogue {} "npc-7"
                { interaction_type := "greeting", relationship_level := mkRat 1 2 }
                {} [] false 0 {}).store).response.text := by
  decide

/-- Concrete scenario for C6: a mid-relationship greeting with one salient
memory, a random draw that selects Local, and a Local response ("Hello
there!") sharing no salient word with the memory. -/
def c6Memory : MemoryItem :=
  { content := "Player helped rebuild the broken bridge", importance := mkRat 1 2 }

/-- The Local adapter's answer in the C6 scenario. -/
def c6LocalResp : DialogueResponse := { text := "Hello there!" }

/-- The context of the C6 scenario. -/
def c6Ctx : NPCInteractionContext :=
  { interaction_type := "greeting", relationship_level := mkRat 2 5 }

/-- Counterexample to claim C6 ("on a too-generic Local response the
orchestrator re-issues the request to the Cloud adapter exactly once"): in the
concrete scenario the Local response is rejected as too generic, yet the Cloud
adapter is invoked zero times — not once — because the rejection path
(local_llm.py:328) re-enters `AIManager.generate_dialogue`, whose own hybrid
invocation fails and degrades to the fallback synthesizer. -/
theorem c6_counterexample :
    hybridUsesLocal {} c6Ctx {} [c6Memory] false 0 = true
      ∧ isResponseTooGeneric c6LocalResp [c6Memory] c6Ctx = true
      ∧ (hybridGenerate {} {} "npc-3" c6Ctx {} [c6Memory] false c6LocalResp 0 0
          {}).cloudAdapterCalls = 0
      ∧ (hybridGenerate {} {} "npc-3" c6Ctx {} [c6Memory] false c6LocalResp 0 0
          {}).response.text = "Hello there! How are you doing?" := by
  decide

/-- Claim C6 amended: when a Local response is rejected by the quality gate,
the request is re-issued exactly once through the orchestrator entry point
`AIManager.generate_dialogue` with `force_claude = false` — on a cache miss
that re-entry re-evaluates `can_spend()` — but it is not directed at the Cloud
adapter, which is invoked zero times. -/
theorem c6_rejection_reenters_orchestrator (env : Env) (cfg : HybridConfig)
    (npcId : String) (ctx : NPCInteractionContext) (pers : PersonalityTraits)
    (memories : List MemoryItem) (forceClaude : Bool)
    (localResp : DialogueResponse) (r : ℚ) (pick : ℕ) (st : RedisModel)
    (huse : hybridUsesLocal cfg ctx pers memories forceClaude r = true)
    (hgen : isResponseTooGeneric localResp memories ctx = true) :
    (hybridGenerate env cfg npcId ctx pers memories forceClaude localResp r pick
        st).response
        = (generateDialogue env npcId ctx pers memories false pick st).response
      ∧ (hybridGenerate env cfg npcId ctx pers memories forceClaude localResp r pick
          st).reentries = 1
      ∧ (hybridGenerate env cfg npcId ctx pers memories forceClaude localResp r pick
          st).cloudAdapterCalls = 0
      ∧ (getCachedDialogue st (getDialogueCacheKey npcId ctx memories) = none →
          (hybridGenerate env cfg npcId ctx pers memories forceClaude localResp r pick
            st).canSpendChecks = 1) := by
  have htrace := generateDialogue_trace env npcId ctx pers memories false pick st
  refine ⟨?_, ?_, ?_, ?_⟩
  · simp [hybridGenerate, huse, hgen]
  · simp [hybridGenerate, huse, hgen, htrace.1]
  · simp [hybridGenerate, huse, hgen, htrace.2.1]
  · intro hmiss
    simp [hybridGenerate, huse, hgen, htrace.2.2.2 hmiss]

/-- Witness for C6's amended statement in the concrete scenario. -/
theorem c6_rejection_reenters_orchestrator_witness :
    hybridUsesLocal {} c6Ctx {} [c6Memory] false 0 = true
      ∧ (hybridGenerate {} {} "npc-3" c6Ctx {} [c6Memory] false c6LocalResp 0 0
          {}).reentries = 1
      ∧ (hybridGenerate {} {} "npc-3" c6Ctx {} [c6Memory] false c6LocalResp 0 0
          {}).canSpendChecks = 1 :=
  ⟨by decide,
    (c6_rejection_reenters_orchestrator {} {} "npc-3" c6Ctx {} [c6Memory] false
      c6LocalResp 0 0 {} (by decide) (by decide)).2.1,
    (c6_rejection_reenters_orchestrator {} {} "npc-3" c6Ctx {} [c6Memory] false
      c6LocalResp 0 0 {} (by decide) (by decide)).2.2.2 (by decide)⟩

end Tuxemon
